import Mathlib

/-!
Verification of the kuusi ranking and widget-serialization layer
(`web/rest/widget.py` and `web/rest/choosable.py`).

The Django models are embedded as plain records, database querysets as
lists, the Python score dictionary as an association list, and fallible
operations (`WEIGHT_MAP[...]`, `serializers[type(widget)]`, attribute
access on `None`) as `Except`.
-/

abbrev WeightLabel := String
abbrev CategoryId := String
abbrev FacetteId := Nat
abbrev ChoosableId := Nat

/-- A `web.models.Choosable`. Only the fields the given serializers read are
kept: the primary key and the `__(field, language_code)` translation lookup.
The lookup function itself is modelled from the spec: `Choosable.__` lives in
`web/models`, outside the given sources; the spec describes it as an opaque
`translate(entity, field, languageCode) -> string` collaborator. -/
structure Choosable where
  pk : ChoosableId
  translations : String → String → String

/-- A `web.models.Session`: primary key, external `result_id` and
`language_code`. -/
structure Session where
  pk : Nat
  result_id : String
  language_code : String
deriving DecidableEq

/-- A `web.models.FacetteSelection`: the session foreign key (`none` models a
NULL reference), the selected facette and the symbolic weight label. -/
structure FacetteSelection where
  session : Option Nat
  facette : FacetteId
  weight : WeightLabel
deriving DecidableEq

/-- A `web.models.FacetteAssignment`: the linked facettes, the assignment
category (`assignment_type`) and the target choosables. -/
structure FacetteAssignment where
  facettes : List FacetteId
  assignment_type : CategoryId
  choosables : List ChoosableId
deriving DecidableEq

/-- Modelled from the spec: the collaborator-owned static configuration.
`WEIGHT_MAP` lives in `kuusi/settings`, and `FacetteAssignment.AssignmentType`
(its `choices` pairs of identifier and label, and its `get_score` reduction)
lives in `web/models`; none of these are among the given sources. The spec
describes them as a symbolic-to-numeric weight map, a fixed enumerated
category domain and a per-domain reduction function, so they are carried as
parameters here. -/
structure Config where
  WEIGHT_MAP : WeightLabel → Option Int
  choices : List (CategoryId × String)
  get_score : List (CategoryId × Int) → Int

/-- `Session.objects.filter(result_id=rid).first()`. -/
def sessionByResultId (sessions : List Session) (rid : String) : Option Session :=
  sessions.find? (fun s => s.result_id == rid)

/-- `FacetteSelection.objects.filter(session=session)` (widget.py line 164);
when the looked-up session is `None` this matches the selections whose
session foreign key is NULL. -/
def selectionsFor (selections : List FacetteSelection) (sessionOpt : Option Session) :
    List FacetteSelection :=
  selections.filter (fun sel => sel.session == sessionOpt.map Session.pk)

/-- The accumulator initialisation of widget.py lines 167-170: one zero slot
per `AssignmentType.choices` entry (`identifier, _ = key`). -/
def initScores (cfg : Config) : List (CategoryId × Int) :=
  cfg.choices.map (fun key => (key.1, 0))

/-- `scores_by_type[t] += v` on the Python dict (association list with unique
keys). -/
def bump : List (CategoryId × Int) → CategoryId → Int → List (CategoryId × Int)
  | [], _, _ => []
  | p :: rest, t, v => (if p.1 = t then (p.1, p.2 + v) else p) :: bump rest t v

/-- `FacetteAssignment.objects.filter(facettes__in=[facette])`
(widget.py line 176). -/
def assignmentsFor (asg : List FacetteAssignment) (f : FacetteId) :
    List FacetteAssignment :=
  asg.filter (fun a => a.facettes.contains f)

/-- The inner assignment loop of widget.py lines 178-180: every assignment of
the selected facette adds `weighted_score = 1 * selection_weight_value` to the
slot of its `assignment_type`. As in the source, the choosable being scored is
never consulted here. -/
def bumpAll (scores : List (CategoryId × Int)) (w : Int) :
    List FacetteAssignment → List (CategoryId × Int)
  | [] => scores
  | a :: rest => bumpAll (bump scores a.assignment_type (1 * w)) w rest

/-- The selection loop of widget.py lines 172-180.
`WEIGHT_MAP[selection.weight]` raises `KeyError` on an unknown label, modelled
as `Except.error`. -/
def scoreSelections (cfg : Config) (asg : List FacetteAssignment)
    (scores : List (CategoryId × Int)) :
    List FacetteSelection → Except String (List (CategoryId × Int))
  | [] => .ok scores
  | sel :: rest =>
    match cfg.WEIGHT_MAP sel.weight with
    | none => .error ("KeyError: " ++ sel.weight)
    | some w =>
      scoreSelections cfg asg (bumpAll scores w (assignmentsFor asg sel.facette)) rest

/-- One iteration of the per-choosable loop of widget.py lines 166-180. The
`choosable` parameter is carried exactly as in the source, whose scoring loops
never read it. -/
def scoreChoosable (cfg : Config) (asg : List FacetteAssignment)
    (sels : List FacetteSelection) (choosable : Choosable) :
    Except String (List (CategoryId × Int)) :=
  scoreSelections cfg asg (initScores cfg) sels

/-- widget.py lines 166-183:
`ranking[choosable.pk] = AssignmentType.get_score(scores_by_type)` for every
choosable of the catalog, in iteration order. -/
def computeRanking (cfg : Config) (asg : List FacetteAssignment)
    (sels : List FacetteSelection) :
    List Choosable → Except String (List (ChoosableId × Int))
  | [] => .ok []
  | ch :: rest => do
    let sc ← scoreChoosable cfg asg sels ch
    let r ← computeRanking cfg asg sels rest
    pure ((ch.pk, cfg.get_score sc) :: r)

/-- `RankedChoosableSerializer.get_rank` (widget.py lines 145-146):
`self.context["ranking"][obj.pk] if obj.pk in self.context["ranking"] else
9999999999`. -/
def lookupRank (ranking : List (ChoosableId × Int)) (pk : ChoosableId) : Int :=
  match ranking.find? (fun p => p.1 == pk) with
  | some p => p.2
  | none => 9999999999

/-- `RankedChoosableSerializer.get_description` (widget.py lines 148-150):
resolves the session again by result id and reads `session.language_code`; on
a missing session Python raises `AttributeError` on `None`. -/
def rankedDescription (sessions : List Session) (rid : String) (ch : Choosable) :
    Except String String :=
  match sessionByResultId sessions rid with
  | none => .error "AttributeError: NoneType has no attribute language_code"
  | some s => .ok (ch.translations "description" s.language_code)

/-- The database state visible to the result-list serializer. -/
structure DB where
  sessions : List Session
  choosables : List Choosable
  selections : List FacetteSelection
  assignments : List FacetteAssignment

/-- Evaluation of `RankedChoosableSerializer(choosables, many=True).data`
(widget.py lines 186-192): each record carries the pk, the rank from
`get_rank` and the description from `get_description`. -/
def serializeRanked (sessions : List Session) (rid : String)
    (ranking : List (ChoosableId × Int)) :
    List Choosable → Except String (List (ChoosableId × Int × String))
  | [] => .ok []
  | ch :: rest => do
    let d ← rankedDescription sessions rid ch
    let r ← serializeRanked sessions rid ranking rest
    pure ((ch.pk, lookupRank ranking ch.pk, d) :: r)

/-- `ResultListWidgetSerializer.get_choosables` (widget.py lines 161-192) end
to end: session lookup by result id, selection filtering, ranking, ranked
serialization. -/
def renderResultList (cfg : Config) (db : DB) (rid : String) :
    Except String (List (ChoosableId × Int × String)) := do
  let sessionOpt := sessionByResultId db.sessions rid
  let sels := selectionsFor db.selections sessionOpt
  let ranking ← computeRanking cfg db.assignments sels db.choosables
  serializeRanked db.sessions rid ranking db.choosables

/-- A widget as seen by `WidgetViewSet.list`: an identifier, its exact runtime
type (`type(widget)`) and every class name it is an instance of. -/
structure Widget where
  id : Nat
  ty : String
  instanceOf : List String
deriving DecidableEq

/-- Python `isinstance(w, cls)`. -/
def isinstance (w : Widget) (cls : String) : Bool :=
  w.instanceOf.contains cls

/-- The ordered serializer registry of widget.py lines 245-255, specialized
entries before generic ones. -/
def widgetRegistry : List (String × String) :=
  [ ("HTMLWidget", "HTMLWidgetSerializer"),
    ("NavigationWidget", "NavigationWidgetSerializer"),
    ("SessionVersionWidget", "SessionVersionWidgetSerializer"),
    ("FacetteRadioSelectionWidget", "FacetteRadioSelectionWidgetSerializer"),
    ("FacetteSelectionWidget", "FacetteSelectionWidgetSerializer"),
    ("ResultListWidget", "ResultListWidgetSerializer"),
    ("ResultShareWidget", "ResultShareWidgetSerializer") ]

/-- `serializers[type(widget)]` (widget.py line 260): exact-type lookup,
`KeyError` when the exact type is absent. -/
def lookupSerializer (reg : List (String × String)) (ty : String) : Option String :=
  (reg.find? (fun p => p.1 == ty)).map Prod.snd

/-- Whether the `for key, value in serializers.items(): if isinstance(widget,
key)` scan of widget.py lines 258-259 finds a match. -/
def widgetMatched (reg : List (String × String)) (w : Widget) : Bool :=
  (reg.find? (fun p => isinstance w p.1)).isSome

/-- One iteration of the dispatch loop body (widget.py lines 257-264): first
`isinstance` match, then `serializers[type(widget)]`, which raises `KeyError`
when the exact type is not registered; no `isinstance` match means the widget
is skipped (`ok none`). -/
def dispatchWidget (reg : List (String × String)) (w : Widget) :
    Except String (Option String) :=
  match reg.find? (fun p => isinstance w p.1) with
  | none => .ok none
  | some _ =>
    match lookupSerializer reg w.ty with
    | none => .error ("KeyError: " ++ w.ty)
    | some s => .ok (some s)

/-- The record appended to `result` for a widget, when any: its id paired with
the serializer that renders it. -/
def emitRecord (reg : List (String × String)) (w : Widget) : Option (Nat × String) :=
  if widgetMatched reg w then (lookupSerializer reg w.ty).map (fun s => (w.id, s))
  else none

/-- `WidgetViewSet.list` (widget.py lines 256-264): the dispatch loop over the
page widget list, in order. -/
def listWidgets (reg : List (String × String)) :
    List Widget → Except String (List (Nat × String))
  | [] => .ok []
  | w :: rest =>
    match reg.find? (fun p => isinstance w p.1) with
    | none => listWidgets reg rest
    | some _ =>
      match lookupSerializer reg w.ty with
      | none => .error ("KeyError: " ++ w.ty)
      | some s => (listWidgets reg rest).map (fun out => (w.id, s) :: out)

/-- `ChoosableSerializer.get_description` (choosable.py lines 40-41): always
translates with the fixed language code "en". -/
def choosable_get_description (ch : Choosable) : String :=
  ch.translations "description" "en"

/-- The `lang not in LANGUAGE_CODES` test of choosable.py line 63 (the `lang`
query parameter may be absent, in which case it is never in the list). -/
def langValid (langCodes : List String) (lang : Option String) : Bool :=
  match lang with
  | none => false
  | some l => langCodes.contains l

/-- `ChoosableViewSet.list` (choosable.py lines 61-65): HTTP 412 on an invalid
`lang` query parameter, otherwise each choosable is serialised with
`get_description`. `LANGUAGE_CODES` is settings-owned configuration, passed as
a parameter. -/
def choosableList (langCodes : List String) (lang : Option String)
    (chs : List Choosable) : Except Nat (List (ChoosableId × String)) :=
  if langValid langCodes lang then
    .ok (chs.map (fun ch => (ch.pk, choosable_get_description ch)))
  else
    .error 412

/-- Observation helper: the value stored under category `c` (0 when the slot
is absent, as for a fresh Python dict read default). -/
def getScoreFor : List (CategoryId × Int) → CategoryId → Int
  | [], _ => 0
  | p :: rest, c => if p.1 = c then p.2 else getScoreFor rest c

/-- Observation helper: whether category `c` has a slot in the accumulator. -/
def hasKey : List (CategoryId × Int) → CategoryId → Bool
  | [], _ => false
  | p :: rest, c => p.1 = c || hasKey rest c

/-- The number of assignments in a list whose `assignment_type` is `c`. -/
def countType : List FacetteAssignment → CategoryId → Nat
  | [], _ => 0
  | a :: rest, c => (if a.assignment_type = c then 1 else 0) + countType rest c

/-- The total contribution a selection list makes to category `c`: for each
selection, the number of assignments of its facette with that category times
the resolved weight. -/
def selContrib (cfg : Config) (asg : List FacetteAssignment) (c : CategoryId) :
    List FacetteSelection → Int
  | [] => 0
  | sel :: rest =>
    (countType (assignmentsFor asg sel.facette) c : Int) *
        ((cfg.WEIGHT_MAP sel.weight).getD 0)
      + selContrib cfg asg c rest

/-- Modelled from the spec: a concrete configuration instantiating the
collaborator-owned weight map, category domain and reduction with the values
of the spec scenario ("high" maps to 3, "low" maps to 1, the categories are
supports and opposes, the example reduction is supports minus opposes). -/
def demoCfg : Config where
  WEIGHT_MAP := fun l => if l = "high" then some 3 else if l = "low" then some 1 else none
  choices := [("supports", "Supports"), ("opposes", "Opposes")]
  get_score := fun sc => getScoreFor sc "supports" - getScoreFor sc "opposes"

def demoChoosable1 : Choosable := ⟨1, fun f l => f ++ "-" ++ l⟩

def demoChoosable2 : Choosable := ⟨2, fun f l => f ++ "+" ++ l⟩

/-- An assignment linking facette 10 to category "supports", targeting only
choosable 1. -/
def demoAssignment : FacetteAssignment := ⟨[10], "supports", [1]⟩

/-- A selection of facette 10 with weight label "high" by session 5. -/
def demoSelection : FacetteSelection := ⟨some 5, 10, "high"⟩

/-- A selection whose weight label is not in the weight map. -/
def demoBadSelection : FacetteSelection := ⟨some 5, 10, "mystery"⟩

/-- A database with no session matching any result id and one choosable. -/
def demoDb : DB := ⟨[], [demoChoosable1], [], []⟩

theorem hasKey_bump (scores : List (CategoryId × Int)) (t : CategoryId) (v : Int)
    (c : CategoryId) : hasKey (bump scores t v) c = hasKey scores c := by
  induction scores with
  | nil => rfl
  | cons p rest ih =>
    by_cases hpt : p.1 = t <;> simp [bump, hasKey, hpt, ih]

theorem getScoreFor_bump_ne (scores : List (CategoryId × Int)) (t : CategoryId)
    (v : Int) (c : CategoryId) (h : c ≠ t) :
    getScoreFor (bump scores t v) c = getScoreFor scores c := by
  induction scores with
  | nil => rfl
  | cons p rest ih =>
    by_cases hpt : p.1 = t
    · have hpc : p.1 ≠ c := fun hc => h (hc ▸ hpt)
      simp [bump, getScoreFor, hpt, hpc, ih, Ne.symm h]
    · by_cases hpc : p.1 = c <;> simp [bump, getScoreFor, hpt, hpc, ih, h]

theorem getScoreFor_bump_eq (scores : List (CategoryId × Int)) (c : CategoryId)
    (v : Int) (h : hasKey scores c = true) :
    getScoreFor (bump scores c v) c = getScoreFor scores c + v := by
  induction scores with
  | nil => simp [hasKey] at h
  | cons p rest ih =>
    by_cases hpc : p.1 = c
    · simp [bump, getScoreFor, hpc]
    · have hrest : hasKey rest c = true := by simpa [hasKey, hpc] using h
      simp [bump, getScoreFor, hpc, ih hrest]

theorem getScoreFor_eq_zero_of_not_hasKey (scores : List (CategoryId × Int))
    (c : CategoryId) (h : hasKey scores c = false) :
    getScoreFor scores c = 0 := by
  induction scores with
  | nil => rfl
  | cons p rest ih =>
    rw [hasKey, Bool.or_eq_false_iff] at h
    have hpc : p.1 ≠ c := by simpa using h.1
    simp [getScoreFor, hpc, ih h.2]

theorem getScoreFor_bump_absent (scores : List (CategoryId × Int))
    (t : CategoryId) (v : Int) (c : CategoryId) (h : hasKey scores c = false) :
    getScoreFor (bump scores t v) c = getScoreFor scores c := by
  rw [getScoreFor_eq_zero_of_not_hasKey scores c h,
    getScoreFor_eq_zero_of_not_hasKey _ c (by rw [hasKey_bump]; exact h)]

theorem hasKey_bumpAll (asgs : List FacetteAssignment) :
    ∀ (scores : List (CategoryId × Int)) (w : Int) (c : CategoryId),
      hasKey (bumpAll scores w asgs) c = hasKey scores c := by
  induction asgs with
  | nil => intro scores w c; rfl
  | cons a rest ih =>
    intro scores w c
    rw [bumpAll, ih, hasKey_bump]

theorem getScoreFor_bumpAll (asgs : List FacetteAssignment) :
    ∀ (scores : List (CategoryId × Int)) (w : Int) (c : CategoryId),
      getScoreFor (bumpAll scores w asgs) c =
        getScoreFor scores c +
          (if hasKey scores c then (countType asgs c : Int) * w else 0) := by
  induction asgs with
  | nil =>
    intro scores w c
    simp [bumpAll, countType]
  | cons a rest ih =>
    intro scores w c
    rw [bumpAll, ih, hasKey_bump]
    by_cases hk : hasKey scores c = true
    · by_cases hac : a.assignment_type = c
      · subst hac
        rw [getScoreFor_bump_eq scores _ _ hk]
        simp only [hk, if_true, countType, if_pos rfl]
        push_cast
        ring
      · have hca : c ≠ a.assignment_type := fun hc => hac hc.symm
        rw [getScoreFor_bump_ne scores _ _ _ hca]
        simp only [hk, if_true, countType, if_neg hac]
        push_cast
        ring
    · have hk' : hasKey scores c = false := by simpa using hk
      rw [getScoreFor_bump_absent scores _ _ _ hk']
      simp [hk']

theorem scoreSelections_closed (cfg : Config) (asg : List FacetteAssignment) :
    ∀ (sels : List FacetteSelection),
      (∀ sel ∈ sels, (cfg.WEIGHT_MAP sel.weight).isSome = true) →
      ∀ scores, ∃ final, scoreSelections cfg asg scores sels = .ok final ∧
        (∀ c, hasKey final c = hasKey scores c) ∧
        (∀ c, getScoreFor final c =
          getScoreFor scores c +
            (if hasKey scores c then selContrib cfg asg c sels else 0)) := by
  intro sels
  induction sels with
  | nil =>
    intro _ scores
    exact ⟨scores, rfl, fun c => rfl, fun c => by simp [selContrib]⟩
  | cons sel rest ih =>
    intro h scores
    have hsel := h sel (List.mem_cons_self sel rest)
    obtain ⟨w, hw⟩ := Option.isSome_iff_exists.mp hsel
    have hrest : ∀ s ∈ rest, (cfg.WEIGHT_MAP s.weight).isSome = true :=
      fun s hs => h s (List.mem_cons_of_mem sel hs)
    obtain ⟨final, hfin, hkey, hval⟩ :=
      ih hrest (bumpAll scores w (assignmentsFor asg sel.facette))
    refine ⟨final, ?_, ?_, ?_⟩
    · rw [scoreSelections, hw]
      exact hfin
    · intro c
      rw [hkey c, hasKey_bumpAll]
    · intro c
      rw [hval c, hasKey_bumpAll, getScoreFor_bumpAll]
      by_cases hk : hasKey scores c = true
      · simp only [hk, if_true, selContrib, hw, Option.getD_some]
        ring
      · have hk' : hasKey scores c = false := by simpa using hk
        simp [hk']

theorem scoreSelections_error (cfg : Config) (asg : List FacetteAssignment)
    (sel : FacetteSelection) :
    ∀ (sels : List FacetteSelection) (scores : List (CategoryId × Int)),
      sel ∈ sels → cfg.WEIGHT_MAP sel.weight = none →
      ∃ e, scoreSelections cfg asg scores sels = .error e := by
  intro sels
  induction sels with
  | nil => intro scores hmem; exact absurd hmem (List.not_mem_nil sel)
  | cons head rest ih =>
    intro scores hmem hw
    rcases List.mem_cons.mp hmem with heq | hrest
    · subst heq
      exact ⟨"KeyError: " ++ sel.weight, by rw [scoreSelections, hw]⟩
    · cases hhead : cfg.WEIGHT_MAP head.weight with
      | none => exact ⟨"KeyError: " ++ head.weight, by rw [scoreSelections, hhead]⟩
      | some w =>
        obtain ⟨e, he⟩ :=
          ih (bumpAll scores w (assignmentsFor asg head.facette)) hrest hw
        exact ⟨e, by rw [scoreSelections, hhead]; exact he⟩

theorem selContrib_append (cfg : Config) (asg : List FacetteAssignment)
    (c : CategoryId) (xs ys : List FacetteSelection) :
    selContrib cfg asg c (xs ++ ys) = selContrib cfg asg c xs + selContrib cfg asg c ys := by
  induction xs with
  | nil => simp [selContrib]
  | cons x rest ih => simp [selContrib, ih]; ring

/-- Claim C1: the claim states that an assignment contributes to a choosable's
score only when the assignment's target set includes that choosable. The code
violates this: the scoring loops of `get_choosables` never consult the
assignment's `choosables` target set (nor the choosable being scored), so an
assignment targeting only choosable 1 still contributes its full weighted
score to choosable 2, and both choosables receive identical score vectors. -/
theorem c1_untargeted_contribution :
    (2 ∉ demoAssignment.choosables) ∧
    scoreChoosable demoCfg [demoAssignment] [demoSelection] demoChoosable2 =
      .ok [("supports", 3), ("opposes", 0)] ∧
    scoreChoosable demoCfg [demoAssignment] [demoSelection] demoChoosable2 =
      scoreChoosable demoCfg [demoAssignment] [demoSelection] demoChoosable1 :=
  ⟨by decide, by rfl, rfl⟩

/-- Claim C2: the claim states that when the session result identifier
resolves to no session, ranking is not attempted and rendering completes
without a crash. The code violates this: with no matching session the ranking
loop still runs (over the selections whose session foreign key is NULL) and
produces a rank for every choosable, and `RankedChoosableSerializer.get_description`
then dereferences the missing session (`session.language_code` on `None`),
raising `AttributeError`, so the result-list widget rendering fails. -/
theorem c2_missing_session_crash :
    sessionByResultId demoDb.sessions "missing" = none ∧
    computeRanking demoCfg demoDb.assignments
      (selectionsFor demoDb.selections (sessionByResultId demoDb.sessions "missing"))
      demoDb.choosables = .ok [(1, 0)] ∧
    renderResultList demoCfg demoDb "missing" =
      .error "AttributeError: NoneType has no attribute language_code" :=
  ⟨rfl, by rfl, by rfl⟩

/-- Claim C4: a selection whose weight label is not in the weight map makes
the ranking computation abort with a `KeyError` (modelled as `Except.error`);
the selection is never silently scored as zero. -/
theorem c4_unknown_weight_aborts (cfg : Config) (asg : List FacetteAssignment)
    (sels : List FacetteSelection) (ch : Choosable) (sel : FacetteSelection)
    (hmem : sel ∈ sels) (hw : cfg.WEIGHT_MAP sel.weight = none) :
    ∃ e, scoreChoosable cfg asg sels ch = .error e :=
  scoreSelections_error cfg asg sel sels (initScores cfg) hmem hw

theorem c4_unknown_weight_aborts_witness :
    demoBadSelection ∈ [demoSelection, demoBadSelection] ∧
    demoCfg.WEIGHT_MAP demoBadSelection.weight = none ∧
    ∃ e, scoreChoosable demoCfg [demoAssignment]
      [demoSelection, demoBadSelection] demoChoosable1 = .error e :=
  ⟨by decide, by decide,
    c4_unknown_weight_aborts demoCfg [demoAssignment]
      [demoSelection, demoBadSelection] demoChoosable1 demoBadSelection
      (by decide) (by decide)⟩

/-- Claim C5: a choosable whose identifier is absent from the ranking map is
exposed with the large sentinel rank 9999999999 (not zero, not an error). -/
theorem c5_unranked_sentinel (ranking : List (ChoosableId × Int))
    (pk : ChoosableId) (h : ranking.find? (fun p => p.1 == pk) = none) :
    lookupRank ranking pk = 9999999999 ∧ lookupRank ranking pk ≠ 0 := by
  unfold lookupRank
  rw [h]
  exact ⟨rfl, by decide⟩

theorem c5_unranked_sentinel_witness :
    ([((1 : ChoosableId), (5 : Int))].find? (fun p => p.1 == 2) = none) ∧
    lookupRank [(1, 5)] 2 = 9999999999 ∧ lookupRank [(1, 5)] 2 ≠ 0 :=
  ⟨by decide, c5_unranked_sentinel [(1, 5)] 2 (by decide)⟩

/-- Claim C6: with zero selections the accumulator is initialised with one
zero slot per assignment-category choice and stays all-zero, so every
choosable's reduced rank is the same scalar
`get_score` applied to the all-zero vector. -/
theorem c6_zero_selections (cfg : Config) (asg : List FacetteAssignment)
    (chs : List Choosable) (ch : Choosable) :
    scoreChoosable cfg asg [] ch = .ok (cfg.choices.map (fun key => (key.1, 0))) ∧
    computeRanking cfg asg [] chs =
      .ok (chs.map (fun c =>
        (c.pk, cfg.get_score (cfg.choices.map (fun key => (key.1, 0)))))) := by
  constructor
  · rfl
  · induction chs with
    | nil => rfl
    | cons c rest ih =>
      simp only [computeRanking, scoreChoosable, scoreSelections, initScores,
        List.map_cons, Bind.bind, Except.bind, ih, Pure.pure, Except.pure]

/-- Claim C3: a widget whose exact runtime type is registered is rendered by
the serializer registered for that exact type — never by a registered
supertype's serializer — because after the first `isinstance` match the
serializer is looked up under `type(widget)`. -/
theorem c3_subtype_dispatch (reg : List (String × String)) (w : Widget)
    (s : String) (hty : lookupSerializer reg w.ty = some s)
    (hself : isinstance w w.ty = true) :
    dispatchWidget reg w = .ok (some s) := by
  have hq : ∃ q, reg.find? (fun p => p.1 == w.ty) = some q := by
    cases hfq : reg.find? (fun p => p.1 == w.ty) with
    | none => rw [lookupSerializer, hfq] at hty; cases hty
    | some q => exact ⟨q, rfl⟩
  obtain ⟨q, hfq⟩ := hq
  have hqm : q ∈ reg := List.mem_of_find?_eq_some hfq
  have hqty : q.1 = w.ty := by
    have := List.find?_some hfq
    simpa using this
  unfold dispatchWidget
  cases hfind : reg.find? (fun p => isinstance w p.1) with
  | none =>
    exfalso
    have hnone := List.find?_eq_none.mp hfind q hqm
    rw [hqty] at hnone
    exact hnone hself
  | some p => simp [hty]

theorem c3_subtype_dispatch_witness :
    lookupSerializer widgetRegistry "FacetteRadioSelectionWidget" =
      some "FacetteRadioSelectionWidgetSerializer" ∧
    dispatchWidget widgetRegistry
        ⟨7, "FacetteRadioSelectionWidget",
          ["FacetteRadioSelectionWidget", "FacetteSelectionWidget", "Widget"]⟩ =
      .ok (some "FacetteRadioSelectionWidgetSerializer") :=
  ⟨by decide,
    c3_subtype_dispatch widgetRegistry
      ⟨7, "FacetteRadioSelectionWidget",
        ["FacetteRadioSelectionWidget", "FacetteSelectionWidget", "Widget"]⟩
      "FacetteRadioSelectionWidgetSerializer" (by decide) (by decide)⟩

/-- Claim C7: when every widget that has an `isinstance` match also has its
exact type registered (as every widget of the seven concrete widget models
does), the rendered list is exactly the input list filtered through
`emitRecord`, in input order: one record per matching widget, matchless
widgets silently omitted, no error. -/
theorem c7_order_preserved (reg : List (String × String)) (widgets : List Widget)
    (h : ∀ w ∈ widgets, widgetMatched reg w = true →
      (lookupSerializer reg w.ty).isSome = true) :
    listWidgets reg widgets = .ok (widgets.filterMap (emitRecord reg)) := by
  induction widgets with
  | nil => rfl
  | cons w rest ih =>
    have hw := h w (List.mem_cons_self w rest)
    have hrest : ∀ x ∈ rest, widgetMatched reg x = true →
        (lookupSerializer reg x.ty).isSome = true :=
      fun x hx => h x (List.mem_cons_of_mem w hx)
    rw [listWidgets]
    cases hfind : reg.find? (fun p => isinstance w p.1) with
    | none =>
      have hm : widgetMatched reg w = false := by simp [widgetMatched, hfind]
      rw [List.filterMap_cons]
      simp only [emitRecord, hm, Bool.false_eq_true, if_false]
      exact ih hrest
    | some q =>
      have hm : widgetMatched reg w = true := by simp [widgetMatched, hfind]
      obtain ⟨s, hs⟩ := Option.isSome_iff_exists.mp (hw hm)
      rw [hs, ih hrest, List.filterMap_cons]
      simp [emitRecord, hm, hs, Except.map]

theorem c7_order_preserved_witness :
    (∀ w ∈ [(⟨1, "HTMLWidget", ["HTMLWidget", "Widget"]⟩ : Widget),
        ⟨2, "FooWidget", ["FooWidget", "Widget"]⟩,
        ⟨3, "NavigationWidget", ["NavigationWidget", "Widget"]⟩],
      widgetMatched widgetRegistry w = true →
        (lookupSerializer widgetRegistry w.ty).isSome = true) ∧
    listWidgets widgetRegistry
        [⟨1, "HTMLWidget", ["HTMLWidget", "Widget"]⟩,
         ⟨2, "FooWidget", ["FooWidget", "Widget"]⟩,
         ⟨3, "NavigationWidget", ["NavigationWidget", "Widget"]⟩] =
      .ok ([(⟨1, "HTMLWidget", ["HTMLWidget", "Widget"]⟩ : Widget),
         ⟨2, "FooWidget", ["FooWidget", "Widget"]⟩,
         ⟨3, "NavigationWidget", ["NavigationWidget", "Widget"]⟩].filterMap
          (emitRecord widgetRegistry)) :=
  ⟨by decide,
    c7_order_preserved widgetRegistry
      [⟨1, "HTMLWidget", ["HTMLWidget", "Widget"]⟩,
       ⟨2, "FooWidget", ["FooWidget", "Widget"]⟩,
       ⟨3, "NavigationWidget", ["NavigationWidget", "Widget"]⟩]
      (by decide)⟩

/-- Claim C9: a widget that is an instance of a registered class but whose
exact runtime type is not itself a registry key raises a `KeyError` at
`serializers[type(widget)]` — it is neither skipped nor rendered with the
matched supertype's serializer, and the whole list rendering fails. -/
theorem c9_unregistered_subtype_keyerror (reg : List (String × String))
    (w : Widget) (hmatch : widgetMatched reg w = true)
    (hty : lookupSerializer reg w.ty = none) :
    dispatchWidget reg w = .error ("KeyError: " ++ w.ty) ∧
    ∀ rest, listWidgets reg (w :: rest) = .error ("KeyError: " ++ w.ty) := by
  obtain ⟨q, hq⟩ := Option.isSome_iff_exists.mp hmatch
  constructor
  · rw [dispatchWidget, hq, hty]
  · intro rest
    rw [listWidgets, hq, hty]

theorem c9_unregistered_subtype_keyerror_witness :
    widgetMatched widgetRegistry
        ⟨9, "ThemedRadioSelectionWidget",
          ["ThemedRadioSelectionWidget", "FacetteRadioSelectionWidget",
           "FacetteSelectionWidget", "Widget"]⟩ = true ∧
    lookupSerializer widgetRegistry "ThemedRadioSelectionWidget" = none ∧
    dispatchWidget widgetRegistry
        ⟨9, "ThemedRadioSelectionWidget",
          ["ThemedRadioSelectionWidget", "FacetteRadioSelectionWidget",
           "FacetteSelectionWidget", "Widget"]⟩ =
      .error ("KeyError: " ++ "ThemedRadioSelectionWidget") :=
  ⟨by decide, by decide,
    (c9_unregistered_subtype_keyerror widgetRegistry
      ⟨9, "ThemedRadioSelectionWidget",
        ["ThemedRadioSelectionWidget", "FacetteRadioSelectionWidget",
         "FacetteSelectionWidget", "Widget"]⟩ (by decide) (by decide)).1⟩

/-- Claim C8: replacing one selection's weight label by a label that the
weight map sends to a strictly greater value never decreases any category
score of any choosable's score vector (all other selections unchanged, the
replacing selection keeping the same facette). -/
theorem c8_weight_monotone (cfg : Config) (asg : List FacetteAssignment)
    (pre post : List FacetteSelection) (s s' : FacetteSelection) (ch : Choosable)
    (w w' : Int) (hfac : s'.facette = s.facette)
    (hw : cfg.WEIGHT_MAP s.weight = some w)
    (hw' : cfg.WEIGHT_MAP s'.weight = some w') (hlt : w < w')
    (hres : ∀ sel ∈ pre ++ post, (cfg.WEIGHT_MAP sel.weight).isSome = true) :
    ∃ r r', scoreChoosable cfg asg (pre ++ s :: post) ch = .ok r ∧
      scoreChoosable cfg asg (pre ++ s' :: post) ch = .ok r' ∧
      ∀ c, getScoreFor r c ≤ getScoreFor r' c := by
  have hpre : ∀ sel ∈ pre, (cfg.WEIGHT_MAP sel.weight).isSome = true :=
    fun sel hs => hres sel (List.mem_append_left post hs)
  have hpost : ∀ sel ∈ post, (cfg.WEIGHT_MAP sel.weight).isSome = true :=
    fun sel hs => hres sel (List.mem_append_right pre hs)
  have h1 : ∀ sel ∈ pre ++ s :: post, (cfg.WEIGHT_MAP sel.weight).isSome = true := by
    intro sel hs
    rcases List.mem_append.mp hs with hl | hr
    · exact hpre sel hl
    · rcases List.mem_cons.mp hr with he | ht
      · subst he; simp [hw]
      · exact hpost sel ht
  have h2 : ∀ sel ∈ pre ++ s' :: post, (cfg.WEIGHT_MAP sel.weight).isSome = true := by
    intro sel hs
    rcases List.mem_append.mp hs with hl | hr
    · exact hpre sel hl
    · rcases List.mem_cons.mp hr with he | ht
      · subst he; simp [hw']
      · exact hpost sel ht
  obtain ⟨r, hr, _, hrv⟩ := scoreSelections_closed cfg asg _ h1 (initScores cfg)
  obtain ⟨r', hr', _, hrv'⟩ := scoreSelections_closed cfg asg _ h2 (initScores cfg)
  refine ⟨r, r', hr, hr', fun c => ?_⟩
  rw [hrv c, hrv' c]
  by_cases hk : hasKey (initScores cfg) c = true
  · simp only [hk, if_true]
    rw [selContrib_append, selContrib_append]
    have hcount :
        selContrib cfg asg c (s :: post) ≤ selContrib cfg asg c (s' :: post) := by
      simp only [selContrib, hw, hw', hfac, Option.getD_some]
      have hnn : (0 : Int) ≤ (countType (assignmentsFor asg s.facette) c : Int) :=
        Int.natCast_nonneg _
      have := mul_le_mul_of_nonneg_left (le_of_lt hlt) hnn
      linarith
    linarith
  · have hk' : hasKey (initScores cfg) c = false := by simpa using hk
    simp [hk']

theorem c8_weight_monotone_witness :
    demoCfg.WEIGHT_MAP "low" = some 1 ∧ demoCfg.WEIGHT_MAP "high" = some 3 ∧
    ∃ r r', scoreChoosable demoCfg [demoAssignment]
        ([] ++ (⟨some 5, 10, "low"⟩ : FacetteSelection) :: []) demoChoosable1 = .ok r ∧
      scoreChoosable demoCfg [demoAssignment]
        ([] ++ demoSelection :: []) demoChoosable1 = .ok r' ∧
      ∀ c, getScoreFor r c ≤ getScoreFor r' c :=
  ⟨by decide, by decide,
    c8_weight_monotone demoCfg [demoAssignment] [] [] ⟨some 5, 10, "low"⟩
      demoSelection demoChoosable1 1 3 (by decide) (by decide) (by decide)
      (by decide) (by intro sel hs; cases hs)⟩

/-- Claim C10: in the Choosable list endpoint, once the `lang` query parameter
passes the precondition gate, every serialized description is translated with
the fixed language code "en" — the right-hand side does not mention `lang` at
all, so any two valid languages produce the same output. -/
theorem c10_description_always_en (langCodes : List String) (lang : String)
    (chs : List Choosable) (h : langValid langCodes (some lang) = true) :
    choosableList langCodes (some lang) chs =
      .ok (chs.map (fun ch => (ch.pk, ch.translations "description" "en"))) := by
  rw [choosableList, if_pos h]
  rfl

theorem c10_description_always_en_witness :
    langValid ["en", "de"] (some "de") = true ∧
    choosableList ["en", "de"] (some "de") [demoChoosable1] =
      .ok ([demoChoosable1].map (fun ch => (ch.pk, ch.translations "description" "en"))) :=
  ⟨by decide,
    c10_description_always_en ["en", "de"] "de" [demoChoosable1] (by decide)⟩
